import Mathlib

/-!
Shallow embedding of the repository source (src/list.js, which concatenates a
list handler, the browser-side auth/gateway/upload helper module, and a delete
handler). Machine time values (Date.now, expireTime) are modelled as Int
milliseconds; JavaScript promises become Except values; the process-wide
AWS.config.credentials cell becomes explicit Option Creds state threaded
through each operation; calls to external SDKs are recorded in a trace list.
-/

/-- A JavaScript Error object; all errors thrown or rejected with in the
module are plain Error values carrying a message. -/
structure JsError where
  message : String
deriving DecidableEq

/-- JSON values are treated as opaque data: their concrete shape is
irrelevant to the authentication and gateway logic, which never inspects
bodies. JSON.stringify is modelled as reading the raw field. -/
structure Js where
  raw : String
deriving DecidableEq

/-- Models JSON.stringify on the opaque JSON representation. -/
def jsonStringify (j : Js) : String :=
  j.raw

/-- A temporary AWS credential set as populated on AWS.config.credentials by
a resolved CognitoIdentityCredentials object. expireTime is none when the
field is undefined (an empty or unresolved credentials object), in which
case the JavaScript comparison against it is a NaN comparison and false. -/
structure Creds where
  accessKeyId : String
  secretAccessKey : String
  sessionToken : String
  expireTime : Option Int
  identityId : String
deriving DecidableEq

/-- The empty credential set installed by signOutUser:
new AWS.CognitoIdentityCredentials with an empty options object; every field
is undefined, in particular expireTime. -/
def emptyCredentials : Creds :=
  { accessKeyId := "", secretAccessKey := "", sessionToken := "",
    expireTime := none, identityId := "" }

/-- A CognitoIdentityCredentials object that was installed on AWS.config but
whose getPromise rejected: its fields were never populated. -/
def unresolvedCredentials : Creds :=
  { accessKeyId := "", secretAccessKey := "", sessionToken := "",
    expireTime := none, identityId := "" }

/-- A signed-in Cognito user handle, as returned by userPool.getCurrentUser. -/
structure User where
  username : String
deriving DecidableEq

/-- A Cognito session; only the id token JWT is read by the module
(session.getIdToken().getJwtToken()). -/
structure Session where
  idTokenJwt : String
deriving DecidableEq

/-- config.cognito from ../config. -/
structure CognitoConfig where
  USER_POOL_ID : String
  APP_CLIENT_ID : String
  REGION : String
  IDENTITY_POOL_ID : String
deriving DecidableEq

/-- config.apiGateway from ../config. -/
structure ApiGatewayConfig where
  REGION : String
  URL : String
deriving DecidableEq

/-- config.s3 from ../config. -/
structure S3Config where
  BUCKET : String
deriving DecidableEq

/-- The application configuration object. -/
structure Config where
  cognito : CognitoConfig
  apiGateway : ApiGatewayConfig
  s3 : S3Config
deriving DecidableEq

/-- The external identity-provider and federation services:
currentUser is the sign-in state observed by userPool.getCurrentUser;
getSession models currentUser.getSession (error err or a session);
federate models the CognitoIdentityCredentials getPromise exchange, given
the authenticator identifier and the user token from the Logins map. -/
structure Env where
  currentUser : Option User
  getSession : User → Except JsError Session
  federate : String → String → Except JsError Creds

/-- External SDK calls that authUser, invokeApig and s3Upload can make,
recorded in traces. -/
inductive Call where
  | getCurrentUser
  | getSession
  | exchange
  | sign
  | httpFetch
deriving DecidableEq

/-- The credential-validity fast-path check of authUser (lines 37-40):
AWS.config.credentials must be present and Date.now() strictly below
expireTime - 60000. An undefined expireTime makes the comparison a NaN
comparison, which is false. -/
def hasValidCredentials (credentials : Option Creds) (now : Int) : Bool :=
  match credentials with
  | none => false
  | some c =>
    match c.expireTime with
    | none => false
    | some e => now < e - 60000

/-- getCurrentUser: builds the user pool from config and asks it for the
current user; the sign-in state lives in the environment. -/
def getCurrentUser (env : Env) : Option User :=
  env.currentUser

/-- getUserToken: wraps currentUser.getSession in a promise, rejecting with
the callback error unchanged and otherwise resolving to the session id
token JWT. -/
def getUserToken (env : Env) (currentUser : User) : Except JsError String :=
  match env.getSession currentUser with
  | Except.error err => Except.error err
  | Except.ok session => Except.ok session.idTokenJwt

/-- The authenticator identifier built inside getAwsCredentials. -/
def authenticatorId (cfg : Config) : String :=
  "cognito-idp." ++ cfg.cognito.REGION ++ ".amazonaws.com/" ++ cfg.cognito.USER_POOL_ID

/-- getAwsCredentials: installs a CognitoIdentityCredentials object built
from the identity pool id and the Logins map and resolves its getPromise;
the external exchange is the federate field of the environment. -/
def getAwsCredentials (cfg : Config) (env : Env) (userToken : String) : Except JsError Creds :=
  env.federate (authenticatorId cfg) userToken

/-- authUser: the ensure-authenticated orchestration (lines 35-57). Returns
the promise outcome, the new AWS.config.credentials state, and the trace of
external calls. On a failed exchange the credentials cell already holds the
new, never-populated CognitoIdentityCredentials object. -/
def authUser (cfg : Config) (env : Env) (credentials : Option Creds) (now : Int) :
    Except JsError Bool × Option Creds × List Call :=
  if hasValidCredentials credentials now then
    (Except.ok true, credentials, [])
  else
    match getCurrentUser env with
    | none => (Except.ok false, credentials, [Call.getCurrentUser])
    | some currentUser =>
      match getUserToken env currentUser with
      | Except.error err =>
        (Except.error err, credentials, [Call.getCurrentUser, Call.getSession])
      | Except.ok userToken =>
        match getAwsCredentials cfg env userToken with
        | Except.error err =>
          (Except.error err, some unresolvedCredentials,
            [Call.getCurrentUser, Call.getSession, Call.exchange])
        | Except.ok creds =>
          (Except.ok true, some creds,
            [Call.getCurrentUser, Call.getSession, Call.exchange])

/-- The client-visible authentication state: the identity-provider sign-in
state plus the process-wide credentials cell. -/
structure AuthState where
  currentUser : Option User
  credentials : Option Creds
deriving DecidableEq

/-- signOutUser (lines 94-105): signs out the current user if present, then,
if the credentials cell holds anything, clears the cached identity and
replaces the cell with an explicitly-empty credential set. -/
def signOutUser (st : AuthState) : AuthState :=
  let st1 :=
    match st.currentUser with
    | some _ => { st with currentUser := none }
    | none => st
  match st1.credentials with
  | some _ => { st1 with credentials := some emptyCredentials }
  | none => st1

/-- The argument object of invokeApig, with the defaults of its destructured
parameters already applied. -/
structure Request where
  path : String
  method : String
  headers : List (String × String)
  queryParams : List (String × String)
  body : Option Js
deriving DecidableEq

/-- The options object passed to sigV4Client.newClient. -/
structure SigV4ClientOptions where
  accessKey : String
  secretKey : String
  sessionToken : String
  region : String
  endpoint : String
deriving DecidableEq

/-- The request description passed to signRequest. -/
structure SignRequestOptions where
  method : String
  path : String
  headers : List (String × String)
  queryParams : List (String × String)
  body : Option Js
deriving DecidableEq

/-- The result of signRequest: a url and signed headers. -/
structure SignedRequest where
  url : String
  headers : List (String × String)
deriving DecidableEq

/-- An HTTP response: its status, the text the body reads as, and the JSON
the body parses as. -/
structure HttpResponse where
  status : Int
  text : String
  json : Js
deriving DecidableEq

/-- The external collaborators of invokeApig: the sigV4 request signer and
the fetch transport. httpFetch takes the url, the method, the headers and
the optional serialized body. -/
structure ApigEnv where
  sign : SigV4ClientOptions → SignRequestOptions → SignedRequest
  httpFetch : String → String → List (String × String) → Option String → HttpResponse

/-- The signed request invokeApig builds from the cached credentials and the
gateway configuration (lines 123-137). -/
def signedRequestFor (cfg : Config) (apig : ApigEnv) (c : Creds) (req : Request) :
    SignedRequest :=
  apig.sign
    { accessKey := c.accessKeyId, secretKey := c.secretAccessKey,
      sessionToken := c.sessionToken, region := cfg.apiGateway.REGION,
      endpoint := cfg.apiGateway.URL }
    { method := req.method, path := req.path, headers := req.headers,
      queryParams := req.queryParams, body := req.body }

/-- The response of the fetch performed by invokeApig: the signed url, the
method, the signed headers and the stringified body when one is present. -/
def fetchResponse (cfg : Config) (apig : ApigEnv) (c : Creds) (req : Request) :
    HttpResponse :=
  apig.httpFetch (signedRequestFor cfg apig c req).url req.method
    (signedRequestFor cfg apig c req).headers (req.body.map jsonStringify)

/-- invokeApig (lines 112-153): ensure authentication, sign, fetch, then
fail with the response text on a non-200 status or return the parsed JSON
body. The credentials-none branch after a true authUser result models the
TypeError a property read on a missing credentials object would raise; it
is unreachable because authUser only returns true with credentials
installed. -/
def invokeApig (cfg : Config) (env : Env) (apig : ApigEnv) (credentials : Option Creds)
    (now : Int) (req : Request) : Except JsError Js × Option Creds × List Call :=
  match authUser cfg env credentials now with
  | (Except.error err, creds2, tr) => (Except.error err, creds2, tr)
  | (Except.ok false, creds2, tr) =>
    (Except.error { message := "User is not logged in" }, creds2, tr)
  | (Except.ok true, creds2, tr) =>
    match creds2 with
    | none => (Except.error { message := "TypeError" }, none, tr)
    | some c =>
      let results := fetchResponse cfg apig c req
      if results.status ≠ 200 then
        (Except.error { message := results.text }, creds2,
          tr ++ [Call.sign, Call.httpFetch])
      else
        (Except.ok results.json, creds2, tr ++ [Call.sign, Call.httpFetch])

/-- A browser File object as consumed by s3Upload: its name, its MIME type
and its opaque contents. -/
structure S3File where
  name : String
  type : String
  contents : String
deriving DecidableEq

/-- The parameter object passed to s3.upload. -/
structure S3UploadOptions where
  key : String
  body : S3File
  contentType : String
  acl : String
deriving DecidableEq

/-- The opaque result of the object-storage upload, returned unchanged. -/
structure UploadResult where
  info : String
deriving DecidableEq

/-- The external object-storage service; upload models s3.upload followed by
promise resolution. -/
structure S3Env where
  upload : S3UploadOptions → Except JsError UploadResult

/-- s3Upload (lines 161-184): ensure authentication, build the object key
identityId-timestamp-name, and upload with public-read visibility. Time is
treated as constant within one call, so the Date.now() in the filename is
the same now as in the fast-path check. The credentials-none branch after a
true authUser result is unreachable, as in invokeApig. -/
def s3Upload (cfg : Config) (env : Env) (s3 : S3Env) (credentials : Option Creds)
    (now : Int) (file : S3File) : Except JsError UploadResult × Option Creds :=
  match authUser cfg env credentials now with
  | (Except.error err, creds2, _) => (Except.error err, creds2)
  | (Except.ok false, creds2, _) =>
    (Except.error { message := "User is not logged in" }, creds2)
  | (Except.ok true, creds2, _) =>
    match creds2 with
    | none => (Except.error { message := "TypeError" }, none)
    | some c =>
      let filename := c.identityId ++ "-" ++ toString now ++ "-" ++ file.name
      let options : S3UploadOptions :=
        { key := filename, body := file, contentType := file.type,
          acl := "public-read" }
      (s3.upload options, creds2)

/-- The parts of a Lambda event the two handlers read:
event.requestContext.identity.cognitoIdentityId and event.pathParameters.id. -/
structure LambdaEvent where
  cognitoIdentityId : String
  pathParameterId : String
deriving DecidableEq

/-- The DynamoDB query parameters built by the list handler (lines 5-17);
the one expression attribute value binds userId. -/
structure QueryParams where
  tableName : String
  keyConditionExpression : String
  attributeValueUserId : String
deriving DecidableEq

/-- The parameter object of the list handler. -/
def listQueryParams (event : LambdaEvent) : QueryParams :=
  { tableName := "notes",
    keyConditionExpression := "userId = :userId",
    attributeValueUserId := event.cognitoIdentityId }

/-- The result of a DynamoDB query call: Items and Count. -/
structure QueryResult where
  items : List Js
  count : Int
deriving DecidableEq

/-- The DynamoDB delete parameters built by the delete handler
(lines 189-198): the table name and the partition and sort keys. -/
structure DeleteParams where
  tableName : String
  keyUserId : String
  keyNoteId : String
deriving DecidableEq

/-- The parameter object of the delete handler. -/
def deleteKeyParams (event : LambdaEvent) : DeleteParams :=
  { tableName := "notes",
    keyUserId := event.cognitoIdentityId,
    keyNoteId := event.pathParameterId }

/-- The body of a handler response: either the Items list of a query or an
object carrying only a boolean status flag. -/
inductive Body where
  | items (xs : List Js)
  | statusFlag (b : Bool)
deriving DecidableEq

/-- Whether a body is an Items envelope. -/
def Body.isItems : Body → Bool
  | Body.items _ => true
  | Body.statusFlag _ => false

/-- Modelled from the spec: ./libs/response-lib is imported by both handlers
but is not under src/. The spec only says the handlers respond with one of
two fixed envelopes, a success one and a failure one, so success and
failure are modelled as tagging the response body with a success flag. -/
structure LambdaResponse where
  isSuccess : Bool
  body : Body
deriving DecidableEq

/-- Modelled from the spec: the success envelope constructor of
./libs/response-lib. -/
def success (body : Body) : LambdaResponse :=
  { isSuccess := true, body := body }

/-- Modelled from the spec: the failure envelope constructor of
./libs/response-lib. -/
def failure (body : Body) : LambdaResponse :=
  { isSuccess := false, body := body }

/-- One invocation of the Lambda callback: the error slot and the response. -/
structure CallbackCall where
  err : Option JsError
  response : LambdaResponse
deriving DecidableEq

/-- The list handler (lines 4-28): query the notes table for the identity id
of the caller; respond with the Items on success and a status-false failure
envelope on any error, always with a null error slot. -/
def listMain (dbQuery : QueryParams → Except JsError QueryResult)
    (event : LambdaEvent) : CallbackCall :=
  match dbQuery (listQueryParams event) with
  | Except.ok result => { err := none, response := success (Body.items result.items) }
  | Except.error _ => { err := none, response := failure (Body.statusFlag false) }

/-- The delete handler (lines 188-206): delete the keyed note; respond with
a status-true success envelope on success and a status-false failure
envelope on any error, always with a null error slot. -/
def deleteMain (dbDelete : DeleteParams → Except JsError Js)
    (event : LambdaEvent) : CallbackCall :=
  match dbDelete (deleteKeyParams event) with
  | Except.ok _ => { err := none, response := success (Body.statusFlag true) }
  | Except.error _ => { err := none, response := failure (Body.statusFlag false) }

/-! Sample values used by witness theorems. -/

/-- A resolved credential set expiring at time 100000. -/
def sampleCreds : Creds :=
  { accessKeyId := "AKID", secretAccessKey := "SECRET", sessionToken := "SESSTOK",
    expireTime := some 100000, identityId := "us-east-1:identity-1" }

/-- A sample Cognito configuration. -/
def sampleCognitoConfig : CognitoConfig :=
  { USER_POOL_ID := "us-east-1_pool", APP_CLIENT_ID := "client",
    REGION := "us-east-1", IDENTITY_POOL_ID := "idpool" }

/-- A sample application configuration. -/
def sampleConfig : Config :=
  { cognito := sampleCognitoConfig,
    apiGateway := { REGION := "us-east-1", URL := "https://api.example.com" },
    s3 := { BUCKET := "uploads" } }

/-- A sample signed-in user. -/
def sampleUser : User :=
  { username := "alice" }

/-- A sample session. -/
def sampleSession : Session :=
  { idTokenJwt := "jwt-abc" }

/-- A healthy environment: a signed-in user, a working session, a working
federation exchange. -/
def sampleEnv : Env :=
  { currentUser := some sampleUser,
    getSession := fun _ => Except.ok sampleSession,
    federate := fun _ _ => Except.ok sampleCreds }

/-- An environment with no signed-in user. -/
def signedOutEnv : Env :=
  { currentUser := none,
    getSession := fun _ => Except.error { message := "no session" },
    federate := fun _ _ => Except.error { message := "no identity" } }

/-- An environment whose identity provider rejects session retrieval. -/
def sessionErrorEnv : Env :=
  { currentUser := some sampleUser,
    getSession := fun _ => Except.error { message := "SessionError" },
    federate := fun _ _ => Except.ok sampleCreds }

/-- Claim C1: for every cached credential set with expiry timestamp E, the
credential-validity check of the authUser fast path returns true iff a
credential set is present and the current time is strictly below E - 60000
milliseconds, and returns false at exactly E - 60000. -/
theorem C1_hasValidCredentials_iff (c : Creds) (e now : Int)
    (he : c.expireTime = some e) :
    (hasValidCredentials (some c) now = true ↔ now < e - 60000)
    ∧ hasValidCredentials (some c) (e - 60000) = false
    ∧ hasValidCredentials none now = false := by
  refine ⟨?_, ?_, rfl⟩ <;> simp [hasValidCredentials, he]

/-- Witness for C1 at the sample credential set, expiry 100000, time 0. -/
theorem C1_witness :
    (hasValidCredentials (some sampleCreds) 0 = true ↔ (0 : Int) < 100000 - 60000)
    ∧ hasValidCredentials (some sampleCreds) (100000 - 60000) = false
    ∧ hasValidCredentials none 0 = false :=
  C1_hasValidCredentials_iff sampleCreds 100000 0 rfl

/-- Claim C2: when the cache holds no valid credentials and the identity
provider reports no current user, authUser resolves to false without
throwing or rejecting (the outcome is an ok value, never an error). -/
theorem C2_authUser_noUser (cfg : Config) (env : Env) (credentials : Option Creds)
    (now : Int)
    (hv : hasValidCredentials credentials now = false)
    (hu : env.currentUser = none) :
    authUser cfg env credentials now
      = (Except.ok false, credentials, [Call.getCurrentUser]) := by
  simp [authUser, hv, getCurrentUser, hu]

/-- Witness for C2 in the signed-out environment with an empty cache. -/
theorem C2_witness :
    authUser sampleConfig signedOutEnv none 0
      = (Except.ok false, none, [Call.getCurrentUser]) :=
  C2_authUser_noUser sampleConfig signedOutEnv none 0 rfl rfl

/-- Claim C3: when valid credentials are cached, authUser returns true
immediately with an empty external-call trace (no getCurrentUser,
getSession or exchange call) and an unchanged credentials cell, and a
repeated call on the resulting state behaves identically. -/
theorem C3_authUser_idempotent (cfg : Config) (env : Env) (credentials : Option Creds)
    (now : Int)
    (hv : hasValidCredentials credentials now = true) :
    authUser cfg env credentials now = (Except.ok true, credentials, [])
    ∧ authUser cfg env (authUser cfg env credentials now).2.1 now
        = authUser cfg env credentials now := by
  have h1 : authUser cfg env credentials now = (Except.ok true, credentials, []) := by
    simp [authUser, hv]
  exact ⟨h1, by simp [h1]⟩

/-- Witness for C3 with the sample credentials cached at time 0. -/
theorem C3_witness :
    (authUser sampleConfig sampleEnv (some sampleCreds) 0
        = (Except.ok true, some sampleCreds, []))
    ∧ authUser sampleConfig sampleEnv
        (authUser sampleConfig sampleEnv (some sampleCreds) 0).2.1 0
        = authUser sampleConfig sampleEnv (some sampleCreds) 0 :=
  C3_authUser_idempotent sampleConfig sampleEnv (some sampleCreds) 0 rfl

/-- Claim C4: when the identity provider rejects session retrieval with an
error, authUser rejects with that same error unchanged. -/
theorem C4_authUser_sessionError (cfg : Config) (env : Env) (credentials : Option Creds)
    (now : Int) (u : User) (e : JsError)
    (hv : hasValidCredentials credentials now = false)
    (hu : env.currentUser = some u)
    (hs : env.getSession u = Except.error e) :
    (authUser cfg env credentials now).1 = Except.error e := by
  simp [authUser, hv, getCurrentUser, hu, getUserToken, hs]

/-- Witness for C4 in the session-error environment. -/
theorem C4_witness :
    (authUser sampleConfig sessionErrorEnv none 0).1
      = Except.error { message := "SessionError" } :=
  C4_authUser_sessionError sampleConfig sessionErrorEnv none 0 sampleUser
    { message := "SessionError" } rfl rfl rfl

/-- Claim C5: signOutUser is idempotent and total; a held credential set is
replaced with the explicitly-empty credential set, which is present and
distinct from an absent one; and calling it when already signed out leaves
the state unchanged. -/
theorem C5_signOutUser_idempotent (st : AuthState) :
    (signOutUser st).currentUser = none
    ∧ (signOutUser st).credentials
        = (if st.credentials.isSome then some emptyCredentials else none)
    ∧ some emptyCredentials ≠ (none : Option Creds)
    ∧ signOutUser { currentUser := none, credentials := none }
        = { currentUser := none, credentials := none }
    ∧ signOutUser (signOutUser st) = signOutUser st := by
  obtain ⟨cu, cr⟩ := st
  cases cu <;> cases cr <;> simp [signOutUser]

/-- authUser itself never signs a request or performs an HTTP fetch: its
trace only ever holds identity-provider and exchange calls. -/
theorem authUser_trace_no_transport (cfg : Config) (env : Env)
    (credentials : Option Creds) (now : Int) :
    Call.sign ∉ (authUser cfg env credentials now).2.2
    ∧ Call.httpFetch ∉ (authUser cfg env credentials now).2.2 := by
  unfold authUser
  split
  · simp
  · split
    · simp
    · split
      · simp
      · split <;> simp

/-- A sample request to the gateway. -/
def sampleRequest : Request :=
  { path := "/notes", method := "GET", headers := [], queryParams := [],
    body := none }

/-- A sample signed request. -/
def sampleSignedRequest : SignedRequest :=
  { url := "https://api.example.com/notes", headers := [("Authorization", "sig")] }

/-- A sample 200 response. -/
def sampleOkResponse : HttpResponse :=
  { status := 200, text := "[]", json := { raw := "[]" } }

/-- A sample 500 response with body text boom. -/
def sampleErrorResponse : HttpResponse :=
  { status := 500, text := "boom", json := { raw := "null" } }

/-- A sample signer/transport pair whose fetch succeeds with status 200. -/
def sampleApigEnv : ApigEnv :=
  { sign := fun _ _ => sampleSignedRequest,
    httpFetch := fun _ _ _ _ => sampleOkResponse }

/-- A signer/transport pair whose fetch fails with status 500. -/
def gatewayErrorApigEnv : ApigEnv :=
  { sign := fun _ _ => sampleSignedRequest,
    httpFetch := fun _ _ _ _ => sampleErrorResponse }

/-- Claim C6: when authUser resolves to false, invokeApig rejects with the
not-logged-in error and its trace holds no sign and no fetch call: the
failure occurs before any signing or HTTP transport. -/
theorem C6_invokeApig_unauthenticated (cfg : Config) (env : Env) (apig : ApigEnv)
    (credentials : Option Creds) (now : Int) (req : Request)
    (h : (authUser cfg env credentials now).1 = Except.ok false) :
    (invokeApig cfg env apig credentials now req).1
      = Except.error { message := "User is not logged in" }
    ∧ Call.sign ∉ (invokeApig cfg env apig credentials now req).2.2
    ∧ Call.httpFetch ∉ (invokeApig cfg env apig credentials now req).2.2 := by
  have hns := authUser_trace_no_transport cfg env credentials now
  rcases hA : authUser cfg env credentials now with ⟨r, creds2, tr⟩
  rw [hA] at h hns
  have hr : r = Except.ok false := h
  subst hr
  simp only [invokeApig, hA, true_and]
  exact ⟨hns.1, hns.2⟩

/-- Witness for C6: signed-out environment, empty cache. -/
theorem C6_witness :
    (invokeApig sampleConfig signedOutEnv sampleApigEnv none 0 sampleRequest).1
      = Except.error { message := "User is not logged in" }
    ∧ Call.sign ∉ (invokeApig sampleConfig signedOutEnv sampleApigEnv none 0
        sampleRequest).2.2
    ∧ Call.httpFetch ∉ (invokeApig sampleConfig signedOutEnv sampleApigEnv none 0
        sampleRequest).2.2 :=
  C6_invokeApig_unauthenticated sampleConfig signedOutEnv sampleApigEnv none 0
    sampleRequest rfl

/-- Claim C7: after a successful authentication, invokeApig rejects with an
error carrying the response body text whenever the response status is not
200, and returns the response body parsed as JSON when the status is 200. -/
theorem C7_invokeApig_status (cfg : Config) (env : Env) (apig : ApigEnv)
    (credentials : Option Creds) (now : Int) (req : Request) (c : Creds)
    (tr : List Call)
    (h : authUser cfg env credentials now = (Except.ok true, some c, tr)) :
    ((fetchResponse cfg apig c req).status ≠ 200 →
      (invokeApig cfg env apig credentials now req).1
        = Except.error { message := (fetchResponse cfg apig c req).text })
    ∧ ((fetchResponse cfg apig c req).status = 200 →
      (invokeApig cfg env apig credentials now req).1
        = Except.ok (fetchResponse cfg apig c req).json) := by
  constructor <;> intro hs <;> simp [invokeApig, h, hs]

/-- Witness for C7: cached valid credentials and a transport answering 500
with body text boom. -/
theorem C7_witness :
    ((fetchResponse sampleConfig gatewayErrorApigEnv sampleCreds sampleRequest).status
        ≠ 200 →
      (invokeApig sampleConfig sampleEnv gatewayErrorApigEnv (some sampleCreds) 0
          sampleRequest).1
        = Except.error { message :=
            (fetchResponse sampleConfig gatewayErrorApigEnv sampleCreds
              sampleRequest).text })
    ∧ ((fetchResponse sampleConfig gatewayErrorApigEnv sampleCreds
          sampleRequest).status = 200 →
      (invokeApig sampleConfig sampleEnv gatewayErrorApigEnv (some sampleCreds) 0
          sampleRequest).1
        = Except.ok (fetchResponse sampleConfig gatewayErrorApigEnv sampleCreds
            sampleRequest).json) :=
  C7_invokeApig_status sampleConfig sampleEnv gatewayErrorApigEnv (some sampleCreds) 0
    sampleRequest sampleCreds [] rfl

/-- The upload options s3Upload builds for credentials c, time now and file
file; its key is the identity id, a hyphen, the timestamp, a hyphen, the
original file name. -/
def s3UploadOptionsFor (c : Creds) (now : Int) (file : S3File) : S3UploadOptions :=
  { key := c.identityId ++ "-" ++ toString now ++ "-" ++ file.name,
    body := file, contentType := file.type, acl := "public-read" }

/-- A sample object-storage service echoing the key of the upload. -/
def sampleS3Env : S3Env :=
  { upload := fun options => Except.ok { info := options.key } }

/-- A sample browser file. -/
def sampleFile : S3File :=
  { name := "photo.png", type := "image/png", contents := "bytes" }

/-- Claim C8: for every authenticated upload, s3Upload passes the storage
service exactly the options whose key is identityId-timestamp-originalName
and returns the service result unchanged. -/
theorem C8_s3Upload_key (cfg : Config) (env : Env) (s3 : S3Env)
    (credentials : Option Creds) (now : Int) (file : S3File) (c : Creds)
    (tr : List Call)
    (h : authUser cfg env credentials now = (Except.ok true, some c, tr)) :
    (s3Upload cfg env s3 credentials now file).1
      = s3.upload (s3UploadOptionsFor c now file)
    ∧ (s3UploadOptionsFor c now file).key
      = c.identityId ++ "-" ++ toString now ++ "-" ++ file.name := by
  exact ⟨by simp [s3Upload, h, s3UploadOptionsFor], rfl⟩

/-- Witness for C8: cached valid credentials, sample file, time 0. -/
theorem C8_witness :
    (s3Upload sampleConfig sampleEnv sampleS3Env (some sampleCreds) 0 sampleFile).1
      = sampleS3Env.upload (s3UploadOptionsFor sampleCreds 0 sampleFile)
    ∧ (s3UploadOptionsFor sampleCreds 0 sampleFile).key
      = sampleCreds.identityId ++ "-" ++ toString (0 : Int) ++ "-" ++ sampleFile.name :=
  C8_s3Upload_key sampleConfig sampleEnv sampleS3Env (some sampleCreds) 0 sampleFile
    sampleCreds [] rfl

/-- Claim C9 counterexample: on a successful delete the delete handler
responds with a success envelope whose body is the status-true flag, which
is not an Items envelope and is not the status-false envelope; this refutes
the claim that every handler responds with the Items envelope on success
and the status-false envelope otherwise. -/
theorem C9_counterexample :
    (deleteMain (fun _ => Except.ok { raw := "deleted" })
        { cognitoIdentityId := "id-1", pathParameterId := "note-1" }).response
      = success (Body.statusFlag true)
    ∧ (success (Body.statusFlag true)).body.isItems = false
    ∧ Body.statusFlag true ≠ Body.statusFlag false :=
  ⟨rfl, rfl, by decide⟩

/-- Claim C9 amended: the list handler responds with the Items envelope on
success and the status-false envelope on failure; the delete handler
responds with the status-true envelope on success and the status-false
envelope on failure; each handler response is one of its two fixed
envelopes, and the failure envelope is the same for every error, so no
error detail reaches the caller. -/
theorem C9_handler_envelopes (event : LambdaEvent)
    (dbQuery : QueryParams → Except JsError QueryResult)
    (dbDelete : DeleteParams → Except JsError Js)
    (r : QueryResult) (j : Js) (e e2 : JsError) :
    (listMain (fun _ => Except.ok r) event
      = { err := none, response := success (Body.items r.items) })
    ∧ (listMain (fun _ => Except.error e) event
      = { err := none, response := failure (Body.statusFlag false) })
    ∧ (deleteMain (fun _ => Except.ok j) event
      = { err := none, response := success (Body.statusFlag true) })
    ∧ (deleteMain (fun _ => Except.error e) event
      = { err := none, response := failure (Body.statusFlag false) })
    ∧ listMain (fun _ => Except.error e) event
      = listMain (fun _ => Except.error e2) event
    ∧ deleteMain (fun _ => Except.error e) event
      = deleteMain (fun _ => Except.error e2) event
    ∧ ((∃ xs, (listMain dbQuery event).response = success (Body.items xs))
        ∨ (listMain dbQuery event).response = failure (Body.statusFlag false))
    ∧ ((deleteMain dbDelete event).response = success (Body.statusFlag true)
        ∨ (deleteMain dbDelete event).response = failure (Body.statusFlag false)) := by
  refine ⟨rfl, rfl, rfl, rfl, rfl, rfl, ?_, ?_⟩
  · unfold listMain
    cases dbQuery (listQueryParams event) with
    | ok result => exact Or.inl ⟨result.items, rfl⟩
    | error err => exact Or.inr rfl
  · unfold deleteMain
    cases dbDelete (deleteKeyParams event) with
    | ok result => exact Or.inl rfl
    | error err => exact Or.inr rfl

/-- Claim C10: on every path, both handlers invoke the callback with a null
error slot; a caught exception is never passed through it. -/
theorem C10_callback_error_slot_null (event : LambdaEvent)
    (dbQuery : QueryParams → Except JsError QueryResult)
    (dbDelete : DeleteParams → Except JsError Js) :
    (listMain dbQuery event).err = none
    ∧ (deleteMain dbDelete event).err = none := by
  constructor
  · unfold listMain
    cases dbQuery (listQueryParams event) <;> rfl
  · unfold deleteMain
    cases dbDelete (deleteKeyParams event) <;> rfl
